import Mathlib

/-!
# Zag-NetStats: verification of the polling/computation core

Shallow embedding of `cmd/main.go` from ShadowZagrosDev/Zag-NetStats.

Modelling conventions:
* Go `uint64` values are `ℕ` together with explicit wrap-around: `uint64`
  subtraction `a - b` becomes `sub64 a b = (a + 2^64 - b) % 2^64` and
  `uint64` addition becomes `add64 a b = (a + b) % 2^64` (exact for
  operands below `2^64`).
* Go `float64` arithmetic is modelled by exact rationals `ℚ`; `math.Round`
  (round half away from zero) becomes `roundHalfAway`.  The quantities the
  program feeds into its float arithmetic are integer byte counts, which
  this idealisation represents exactly.
* Go `int` flag values are `ℤ`.
* The fallible counter query is an `Except String` value; `log.Fatal`
  paths at startup are the `Except.error` branch of `validateFlags`.
-/

namespace ZagNetStats

/-- Constants for unit conversions using binary (1024-based) prefixes,
from `const ( KB = 1024.0; MB = KB * 1024; GB = MB * 1024 )`. -/
def KB : ℚ := 1024

def MB : ℚ := KB * 1024

def GB : ℚ := MB * 1024

/-- Structure `Speed` describes network transfer speed with a numerical value and its unit. -/
structure Speed where
  value : ℚ
  unit : String
deriving Repr, DecidableEq

/-- Structure `Usage` represents network data transfer amount with a numerical value and its unit. -/
structure Usage where
  value : ℚ
  unit : String
deriving Repr, DecidableEq

/-- Go's `math.Round`: the nearest integer, rounding half away from zero. -/
def roundHalfAway (x : ℚ) : ℤ :=
  if 0 ≤ x then ⌊x + 1/2⌋ else ⌈x - 1/2⌉

/-- Function `round(value, precision)`: `math.Round(value*multiplier) / multiplier`
with `multiplier = math.Pow(10, precision)`. -/
def round (value : ℚ) (precision : ℤ) : ℚ :=
  let multiplier : ℚ := 10 ^ precision
  (roundHalfAway (value * multiplier) : ℚ) / multiplier

/-- Function `calculateSpeed` determines the most appropriate unit for network
transfer speed (B/s, KB/s, MB/s, GB/s), from `func calculateSpeed`. -/
def calculateSpeed (bytes : ℕ) (interval : ℤ) (precision : ℤ) : Speed :=
  let speed : ℚ := (bytes : ℚ) / (interval : ℚ)
  if speed ≥ GB then
    { value := round (speed / GB) precision, unit := "GB/s" }
  else if speed ≥ MB then
    { value := round (speed / MB) precision, unit := "MB/s" }
  else if speed ≥ KB then
    { value := round (speed / KB) precision, unit := "KB/s" }
  else
    { value := round speed precision, unit := "B/s" }

/-- Function `calculateUsage` determines the most appropriate unit for network
data transfer (B, KB, MB, GB), from `func calculateUsage`. -/
def calculateUsage (bytes : ℕ) (precision : ℤ) : Usage :=
  let usage : ℚ := (bytes : ℚ)
  if usage ≥ GB then
    { value := round (usage / GB) precision, unit := "GB" }
  else if usage ≥ MB then
    { value := round (usage / MB) precision, unit := "MB" }
  else if usage ≥ KB then
    { value := round (usage / KB) precision, unit := "KB" }
  else
    { value := round usage precision, unit := "B" }

/-- The modulus of Go `uint64` arithmetic. -/
def U64 : ℕ := 2 ^ 64

/-- Go `uint64` subtraction `a - b`, which wraps modulo `2^64`.
Exact for operands below `2^64`. -/
def sub64 (a b : ℕ) : ℕ := (a + U64 - b) % U64

/-- Go `uint64` addition `a + b`, which wraps modulo `2^64`. -/
def add64 (a b : ℕ) : ℕ := (a + b) % U64

/-- The fields of `gopsutil`'s `net.IOCountersStat` used by the program. -/
structure IOCountersStat where
  name : String
  bytesSent : ℕ
  bytesRecv : ℕ
deriving Repr, DecidableEq

/-- Function `getInterfaceIOCounters`: scan the per-interface counter list for the
named interface; error when absent (`"interface not found: ..."`).  The
host's counter table is the explicit input. -/
def getInterfaceIOCounters (counterTable : List IOCountersStat) (ifaceName : String) :
    Except String IOCountersStat :=
  match counterTable.find? (fun io => io.name == ifaceName) with
  | some io => Except.ok io
  | none => Except.error ("interface not found: " ++ ifaceName)

/-- Structure `NetStats` represents comprehensive network statistics for a specific
network interface. -/
structure NetStats where
  interface : String
  sentSpeed : Speed
  recvSpeed : Speed
  totalSent : Usage
  totalRecv : Usage
  totalUsage : Usage
deriving Repr, DecidableEq

/-- The configuration fields of `NetworkMonitor` (the channel and mutex are
runtime plumbing with no bearing on the computed statistics). -/
structure NetworkMonitor where
  interfaceName : String
  refreshInterval : ℤ
  precision : ℤ
  format : String
deriving Repr, DecidableEq

/-- The sampler state of `collectStats`: the baselines captured from the
first successful query and the previous snapshot. -/
structure SamplerState where
  totalSentStart : ℕ
  totalRecvStart : ℕ
  prevSnapshot : IOCountersStat
deriving Repr, DecidableEq

/-- The state set up by `collectStats` after the initial query
(`totalSentStart := initialNetIO.BytesSent`, etc., `prevNetIO := initialNetIO`). -/
def initState (initialCounters : IOCountersStat) : SamplerState :=
  { totalSentStart := initialCounters.bytesSent
    totalRecvStart := initialCounters.bytesRecv
    prevSnapshot := initialCounters }

/-- Line `sentBytes := currentNetIO.BytesSent - prevNetIO.BytesSent` (uint64). -/
def tickSentBytes (st : SamplerState) (cur : IOCountersStat) : ℕ :=
  sub64 cur.bytesSent st.prevSnapshot.bytesSent

/-- Line `recvBytes := currentNetIO.BytesRecv - prevNetIO.BytesRecv` (uint64). -/
def tickRecvBytes (st : SamplerState) (cur : IOCountersStat) : ℕ :=
  sub64 cur.bytesRecv st.prevSnapshot.bytesRecv

/-- Line `totalSent := currentNetIO.BytesSent - totalSentStart` (uint64). -/
def tickTotalSent (st : SamplerState) (cur : IOCountersStat) : ℕ :=
  sub64 cur.bytesSent st.totalSentStart

/-- Line `totalRecv := currentNetIO.BytesRecv - totalRecvStart` (uint64). -/
def tickTotalRecv (st : SamplerState) (cur : IOCountersStat) : ℕ :=
  sub64 cur.bytesRecv st.totalRecvStart

/-- One iteration of the ticker arm of the `select` in `collectStats`:
on query error, log and `continue` (state unchanged, nothing rendered);
on success, build the `NetStats`, publish/render it, and update
`prevNetIO`. -/
def collectTick (nm : NetworkMonitor) (st : SamplerState)
    (query : Except String IOCountersStat) : SamplerState × Option NetStats :=
  match query with
  | Except.error _ => (st, none)
  | Except.ok current =>
    let stats : NetStats :=
      { interface := nm.interfaceName
        sentSpeed := calculateSpeed (tickSentBytes st current) nm.refreshInterval nm.precision
        recvSpeed := calculateSpeed (tickRecvBytes st current) nm.refreshInterval nm.precision
        totalSent := calculateUsage (tickTotalSent st current) nm.precision
        totalRecv := calculateUsage (tickTotalRecv st current) nm.precision
        totalUsage := calculateUsage
          (add64 (tickTotalSent st current) (tickTotalRecv st current)) nm.precision }
    ({ st with prevSnapshot := current }, some stats)

/-- A run of successive ticker iterations of `collectStats`, returning the
final sampler state and the rendered snapshots in order. -/
def runTicks (nm : NetworkMonitor) (st : SamplerState) :
    List (Except String IOCountersStat) → SamplerState × List NetStats
  | [] => (st, [])
  | q :: qs =>
    let step := collectTick nm st q
    let rest := runTicks nm step.1 qs
    (rest.1, step.2.toList ++ rest.2)

/-- The flag validation sequence of `main`: each violated constraint hits
`log.Fatal` (message to standard error, non-zero exit) before the monitor
is constructed, so before any polling starts.  Checks appear in source
order. -/
def validateFlags (interfaceName : String) (refreshInterval precision : ℤ)
    (format : String) : Except String NetworkMonitor :=
  if interfaceName = "" then
    Except.error "Error: the -i (interface) flag is required."
  else if precision < 0 ∨ precision > 6 then
    Except.error "Precision must be between 0 and 6 decimal places"
  else if refreshInterval ≤ 0 ∨ refreshInterval > 3600 then
    Except.error "Refresh interval must be between 1 and 3600 seconds"
  else if format ≠ "json" ∧ format ≠ "table" then
    Except.error "Invalid output format. Allowed values: json, table"
  else
    Except.ok { interfaceName := interfaceName, refreshInterval := refreshInterval,
                precision := precision, format := format }

/-- Modelled from the spec: the comparand of its unit-agreement property
`scaleSpeed(bytes, interval, p) = scaleUsage(round(bytes/interval), p)` —
the per-interval rate rounded to the nearest integer byte count.  This
follows the spec's words and exists only to be compared with the code's
`calculateSpeed`. -/
def specRoundedRate (bytes : ℕ) (interval : ℤ) : ℕ :=
  (roundHalfAway ((bytes : ℚ) / (interval : ℚ))).toNat

/-! ## Basic lemmas about the embedded arithmetic -/

theorem sub64_eq_of_le {a b : ℕ} (h1 : b ≤ a) (h2 : a < U64) : sub64 a b = a - b := by
  have hU : U64 = 18446744073709551616 := by norm_num [U64]
  simp only [sub64, hU] at *
  omega

theorem sub64_self (a : ℕ) : sub64 a a = 0 := by
  have hU : U64 = 18446744073709551616 := by norm_num [U64]
  simp only [sub64, hU]
  omega

theorem sub64_wrap {a b : ℕ} (h1 : a < b) (h2 : b < U64) : sub64 a b = a + 2 ^ 64 - b := by
  have hU : U64 = 18446744073709551616 := by norm_num [U64]
  simp only [sub64, hU] at *
  omega

theorem add64_eq_of_lt {a b : ℕ} (h : a + b < U64) : add64 a b = a + b := by
  simpa [add64] using Nat.mod_eq_of_lt h

theorem roundHalfAway_intCast (z : ℤ) : roundHalfAway (z : ℚ) = z := by
  unfold roundHalfAway
  by_cases h : (0:ℚ) ≤ (z : ℚ)
  · rw [if_pos h, add_comm, Int.floor_add_int]
    norm_num
  · rw [if_neg h, sub_eq_add_neg, add_comm, Int.ceil_add_int]
    norm_num

theorem roundHalfAway_nonneg {x : ℚ} (h : 0 ≤ x) : 0 ≤ roundHalfAway x := by
  unfold roundHalfAway
  rw [if_pos h]
  rw [Int.le_floor]
  push_cast
  linarith

theorem round_intCast (z : ℤ) (p : ℤ) (hp : 0 ≤ p) : round (z : ℚ) p = z := by
  lift p to ℕ using hp
  unfold round
  dsimp only
  rw [zpow_natCast]
  have hcast : (z : ℚ) * 10 ^ p = ((z * 10 ^ p : ℤ) : ℚ) := by push_cast; ring
  rw [hcast, roundHalfAway_intCast]
  have hne : ((10:ℚ)) ^ p ≠ 0 := by positivity
  push_cast
  field_simp

theorem round_zero (p : ℤ) : round 0 p = 0 := by
  unfold round roundHalfAway
  dsimp only
  norm_num

theorem round_nonneg {x : ℚ} (p : ℤ) (h : 0 ≤ x) : 0 ≤ round x p := by
  unfold round
  dsimp only
  have hm : (0:ℚ) < 10 ^ p := by positivity
  have h1 : (0:ℚ) ≤ x * 10 ^ p := by positivity
  have h2 := roundHalfAway_nonneg h1
  have h3 : (0:ℚ) ≤ (roundHalfAway (x * 10 ^ p) : ℚ) := by exact_mod_cast h2
  positivity

theorem calculateSpeed_zero (interval p : ℤ) : calculateSpeed 0 interval p =
    { value := 0, unit := "B/s" } := by
  unfold calculateSpeed
  dsimp only
  norm_num [KB, MB, GB, round_zero]

theorem calculateSpeed_value_nonneg (bytes : ℕ) (interval p : ℤ) (h : 0 ≤ interval) :
    0 ≤ (calculateSpeed bytes interval p).value := by
  unfold calculateSpeed
  have hs : (0:ℚ) ≤ (bytes : ℚ) / (interval : ℚ) := by
    apply div_nonneg (by positivity)
    exact_mod_cast h
  dsimp only
  have hKB : (0:ℚ) < KB := by norm_num [KB]
  have hMB : (0:ℚ) < MB := by norm_num [MB, KB]
  have hGB : (0:ℚ) < GB := by norm_num [GB, MB, KB]
  split_ifs <;> exact round_nonneg _ (by positivity)

theorem calculateUsage_value_nonneg (bytes : ℕ) (p : ℤ) :
    0 ≤ (calculateUsage bytes p).value := by
  unfold calculateUsage
  dsimp only
  have hs : (0:ℚ) ≤ (bytes : ℚ) := by positivity
  have hKB : (0:ℚ) < KB := by norm_num [KB]
  have hMB : (0:ℚ) < MB := by norm_num [MB, KB]
  have hGB : (0:ℚ) < GB := by norm_num [GB, MB, KB]
  split_ifs <;> exact round_nonneg _ (by positivity)

theorem calculateSpeed_unit_mem (bytes : ℕ) (interval p : ℤ) :
    (calculateSpeed bytes interval p).unit ∈ (["B/s", "KB/s", "MB/s", "GB/s"] : List String) := by
  unfold calculateSpeed
  dsimp only
  split_ifs <;> simp

theorem calculateUsage_unit_mem (bytes : ℕ) (p : ℤ) :
    (calculateUsage bytes p).unit ∈ (["B", "KB", "MB", "GB"] : List String) := by
  unfold calculateUsage
  dsimp only
  split_ifs <;> simp

theorem collectTick_error (nm : NetworkMonitor) (st : SamplerState) (e : String) :
    collectTick nm st (Except.error e) = (st, none) := rfl

theorem collectTick_fst_totalSentStart (nm : NetworkMonitor) (st : SamplerState)
    (q : Except String IOCountersStat) :
    (collectTick nm st q).1.totalSentStart = st.totalSentStart := by
  cases q <;> rfl

theorem collectTick_fst_totalRecvStart (nm : NetworkMonitor) (st : SamplerState)
    (q : Except String IOCountersStat) :
    (collectTick nm st q).1.totalRecvStart = st.totalRecvStart := by
  cases q <;> rfl

theorem runTicks_fst_totalSentStart (nm : NetworkMonitor) (st : SamplerState)
    (qs : List (Except String IOCountersStat)) :
    (runTicks nm st qs).1.totalSentStart = st.totalSentStart := by
  induction qs generalizing st with
  | nil => rfl
  | cons q qs ih =>
    rw [runTicks]
    rw [ih]
    exact collectTick_fst_totalSentStart nm st q

theorem runTicks_fst_totalRecvStart (nm : NetworkMonitor) (st : SamplerState)
    (qs : List (Except String IOCountersStat)) :
    (runTicks nm st qs).1.totalRecvStart = st.totalRecvStart := by
  induction qs generalizing st with
  | nil => rfl
  | cons q qs ih =>
    rw [runTicks]
    rw [ih]
    exact collectTick_fst_totalRecvStart nm st q

/-! ## Claim theorems -/

/-- C2: unit selection uses a `>=` comparison against the thresholds, so a
byte count exactly equal to a threshold (1024, 1024^2, 1024^3) selects the
higher unit with value 1 — e.g. `calculateUsage 1048576 2` is 1 MB, not
1024 KB — and likewise `calculateSpeed` with the per-second units. -/
theorem threshold_boundary_higher_unit (p : ℤ) (hp : 0 ≤ p) :
    calculateUsage 1024 p = { value := 1, unit := "KB" } ∧
    calculateUsage 1048576 p = { value := 1, unit := "MB" } ∧
    calculateUsage 1073741824 p = { value := 1, unit := "GB" } ∧
    calculateSpeed 1024 1 p = { value := 1, unit := "KB/s" } ∧
    calculateSpeed 1048576 1 p = { value := 1, unit := "MB/s" } ∧
    calculateSpeed 1073741824 1 p = { value := 1, unit := "GB/s" } := by
  have h1 : round 1 p = 1 := by simpa using round_intCast 1 p hp
  refine ⟨?_, ?_, ?_, ?_, ?_, ?_⟩ <;>
    · simp only [calculateUsage, calculateSpeed]
      norm_num [KB, MB, GB, h1]

/-- Witness for C2 at precision 2. -/
theorem threshold_boundary_higher_unit_witness :
    (0:ℤ) ≤ 2 ∧ calculateUsage 1048576 2 = { value := 1, unit := "MB" } :=
  ⟨by norm_num, (threshold_boundary_higher_unit 2 (by norm_num)).2.1⟩

/-- C9: the two concrete examples: a 12,958,993-byte delta over a 1-second
interval reports 12.36 MB/s at precision 2, and a cumulative total of
1,321,528,114 bytes reports 1.23 GB at precision 2. -/
theorem readme_concrete_examples :
    calculateSpeed 12958993 1 2 = { value := 12.36, unit := "MB/s" } ∧
    calculateUsage 1321528114 2 = { value := 1.23, unit := "GB" } := by
  constructor
  · unfold calculateSpeed round roundHalfAway
    norm_num [KB, MB, GB]
  · unfold calculateUsage round roundHalfAway
    norm_num [KB, MB, GB]

/-- C7: when two consecutive ticks observe identical counter values, the
second tick computes zero sent/recv deltas, renders speeds of 0 B/s, and
leaves the raw totalSent/totalRecv quantities unchanged from the first
tick. -/
theorem identical_counters_idempotent (nm : NetworkMonitor) (st : SamplerState)
    (cur : IOCountersStat) :
    tickSentBytes (collectTick nm st (Except.ok cur)).1 cur = 0 ∧
    tickRecvBytes (collectTick nm st (Except.ok cur)).1 cur = 0 ∧
    ((collectTick nm (collectTick nm st (Except.ok cur)).1 (Except.ok cur)).2.map
        (fun s => s.sentSpeed)) = some { value := 0, unit := "B/s" } ∧
    ((collectTick nm (collectTick nm st (Except.ok cur)).1 (Except.ok cur)).2.map
        (fun s => s.recvSpeed)) = some { value := 0, unit := "B/s" } ∧
    tickTotalSent (collectTick nm st (Except.ok cur)).1 cur = tickTotalSent st cur ∧
    tickTotalRecv (collectTick nm st (Except.ok cur)).1 cur = tickTotalRecv st cur := by
  refine ⟨?_, ?_, ?_, ?_, ?_, ?_⟩ <;>
    simp [collectTick, tickSentBytes, tickRecvBytes, tickTotalSent, tickTotalRecv,
      sub64_self, calculateSpeed_zero]

/-- C1 (counterexample): at a concrete rollback (previous counter 1000,
current counter 400) the subtraction is performed on uint64, so the value
that reaches `calculateSpeed` is the wrapped `2^64 - 600`, and the
displayed value is a huge positive number — not a negative one as the
claim states. -/
theorem rollback_negative_value_cex :
    tickSentBytes (initState { name := "eth0", bytesSent := 1000, bytesRecv := 1000 })
        { name := "eth0", bytesSent := 400, bytesRecv := 400 } = 2 ^ 64 - 600 ∧
    calculateSpeed (2 ^ 64 - 600) 1 2 = { value := 17179869184, unit := "GB/s" } ∧
    ¬ (calculateSpeed (2 ^ 64 - 600) 1 2).value < 0 := by
  have h2 : calculateSpeed (2 ^ 64 - 600) 1 2 = { value := 17179869184, unit := "GB/s" } := by
    unfold calculateSpeed round roundHalfAway
    norm_num [KB, MB, GB]
  refine ⟨?_, h2, ?_⟩
  · norm_num [tickSentBytes, initState, sub64, U64]
  · rw [h2]
    norm_num

/-- C1 (amended): on a counter rollback the uint64 delta wraps modulo
`2^64` to `current + 2^64 - previous`, a huge positive quantity; it flows
through to `calculateSpeed` and the rendered snapshot unchanged — not
clamped, not specially detected, not an error — and the displayed value is
nonnegative, never negative. -/
theorem rollback_delta_wraps_through (nm : NetworkMonitor) (st : SamplerState)
    (cur : IOCountersStat)
    (hroll : cur.bytesSent < st.prevSnapshot.bytesSent)
    (hprev : st.prevSnapshot.bytesSent < U64)
    (hint : 1 ≤ nm.refreshInterval) :
    tickSentBytes st cur = cur.bytesSent + 2 ^ 64 - st.prevSnapshot.bytesSent ∧
    ((collectTick nm st (Except.ok cur)).2.map (fun s => s.sentSpeed)) =
      some (calculateSpeed (tickSentBytes st cur) nm.refreshInterval nm.precision) ∧
    0 ≤ (calculateSpeed (tickSentBytes st cur) nm.refreshInterval nm.precision).value := by
  refine ⟨sub64_wrap hroll hprev, ?_, ?_⟩
  · simp [collectTick]
  · exact calculateSpeed_value_nonneg _ _ _ (by omega)

/-- Witness for the amended C1 at a concrete rollback input. -/
theorem rollback_delta_wraps_through_witness :
    tickSentBytes (initState { name := "eth0", bytesSent := 1000, bytesRecv := 1000 })
        { name := "eth0", bytesSent := 400, bytesRecv := 400 } = 400 + 2 ^ 64 - 1000 ∧
    ((collectTick { interfaceName := "eth0", refreshInterval := 1, precision := 2, format := "json" }
        (initState { name := "eth0", bytesSent := 1000, bytesRecv := 1000 })
        (Except.ok { name := "eth0", bytesSent := 400, bytesRecv := 400 })).2.map
        (fun s => s.sentSpeed)) =
      some (calculateSpeed
        (tickSentBytes (initState { name := "eth0", bytesSent := 1000, bytesRecv := 1000 })
          { name := "eth0", bytesSent := 400, bytesRecv := 400 }) 1 2) ∧
    0 ≤ (calculateSpeed
        (tickSentBytes (initState { name := "eth0", bytesSent := 1000, bytesRecv := 1000 })
          { name := "eth0", bytesSent := 400, bytesRecv := 400 }) 1 2).value :=
  rollback_delta_wraps_through
    { interfaceName := "eth0", refreshInterval := 1, precision := 2, format := "json" }
    (initState { name := "eth0", bytesSent := 1000, bytesRecv := 1000 })
    { name := "eth0", bytesSent := 400, bytesRecv := 400 }
    (by norm_num [initState]) (by norm_num [initState, U64]) (by norm_num)

/-- C3: the raw byte quantity scaled into `totalUsage` is the sum of the
raw `totalSent` and `totalRecv` quantities (the sum is taken in uint64;
below `2^64` it is the exact sum, as stated here). -/
theorem snapshot_totalUsage_raw_sum (nm : NetworkMonitor) (st : SamplerState)
    (cur : IOCountersStat)
    (h : tickTotalSent st cur + tickTotalRecv st cur < U64) :
    ((collectTick nm st (Except.ok cur)).2.map (fun s => s.totalUsage)) =
      some (calculateUsage (tickTotalSent st cur + tickTotalRecv st cur) nm.precision) := by
  simp [collectTick, add64_eq_of_lt h]

/-- Witness for C3 at a concrete successful tick. -/
theorem snapshot_totalUsage_raw_sum_witness :
    ((collectTick { interfaceName := "eth0", refreshInterval := 1, precision := 2, format := "table" }
        (initState { name := "eth0", bytesSent := 0, bytesRecv := 0 })
        (Except.ok { name := "eth0", bytesSent := 100, bytesRecv := 200 })).2.map
        (fun s => s.totalUsage)) =
      some (calculateUsage
        (tickTotalSent (initState { name := "eth0", bytesSent := 0, bytesRecv := 0 })
            { name := "eth0", bytesSent := 100, bytesRecv := 200 } +
          tickTotalRecv (initState { name := "eth0", bytesSent := 0, bytesRecv := 0 })
            { name := "eth0", bytesSent := 100, bytesRecv := 200 }) 2) :=
  snapshot_totalUsage_raw_sum
    { interfaceName := "eth0", refreshInterval := 1, precision := 2, format := "table" }
    (initState { name := "eth0", bytesSent := 0, bytesRecv := 0 })
    { name := "eth0", bytesSent := 100, bytesRecv := 200 }
    (by norm_num [tickTotalSent, tickTotalRecv, initState, sub64, U64])

/-- C4: a failed counter query on a later tick is recoverable: that tick
produces no snapshot and leaves the sampler state — the
`totalSentStart`/`totalRecvStart` baselines and the previous snapshot —
untouched, so the next successful tick computes its deltas against the
last known-good previous snapshot. -/
theorem tick_query_failure_recoverable (nm : NetworkMonitor) (st : SamplerState)
    (counterTable : List IOCountersStat) (cur : IOCountersStat)
    (h : ∀ io ∈ counterTable, io.name ≠ nm.interfaceName) :
    collectTick nm st (getInterfaceIOCounters counterTable nm.interfaceName) = (st, none) ∧
    (collectTick nm st (getInterfaceIOCounters counterTable nm.interfaceName)).1.totalSentStart
      = st.totalSentStart ∧
    (collectTick nm st (getInterfaceIOCounters counterTable nm.interfaceName)).1.totalRecvStart
      = st.totalRecvStart ∧
    tickSentBytes (collectTick nm st (getInterfaceIOCounters counterTable nm.interfaceName)).1 cur
      = sub64 cur.bytesSent st.prevSnapshot.bytesSent ∧
    tickRecvBytes (collectTick nm st (getInterfaceIOCounters counterTable nm.interfaceName)).1 cur
      = sub64 cur.bytesRecv st.prevSnapshot.bytesRecv := by
  have hf : counterTable.find? (fun io => io.name == nm.interfaceName) = none := by
    rw [List.find?_eq_none]
    intro io hio
    simpa using h io hio
  have hq : getInterfaceIOCounters counterTable nm.interfaceName =
      Except.error ("interface not found: " ++ nm.interfaceName) := by
    simp [getInterfaceIOCounters, hf]
  rw [hq]
  exact ⟨rfl, rfl, rfl, rfl, rfl⟩

/-- Witness for C4: the monitored interface is absent from the host list. -/
theorem tick_query_failure_recoverable_witness :
    collectTick { interfaceName := "eth0", refreshInterval := 1, precision := 2, format := "json" }
        (initState { name := "eth0", bytesSent := 50, bytesRecv := 60 })
        (getInterfaceIOCounters [{ name := "lo", bytesSent := 5, bytesRecv := 6 }] "eth0")
      = (initState { name := "eth0", bytesSent := 50, bytesRecv := 60 }, none) ∧
    (collectTick { interfaceName := "eth0", refreshInterval := 1, precision := 2, format := "json" }
        (initState { name := "eth0", bytesSent := 50, bytesRecv := 60 })
        (getInterfaceIOCounters [{ name := "lo", bytesSent := 5, bytesRecv := 6 }] "eth0")).1.totalSentStart
      = (initState { name := "eth0", bytesSent := 50, bytesRecv := 60 }).totalSentStart ∧
    (collectTick { interfaceName := "eth0", refreshInterval := 1, precision := 2, format := "json" }
        (initState { name := "eth0", bytesSent := 50, bytesRecv := 60 })
        (getInterfaceIOCounters [{ name := "lo", bytesSent := 5, bytesRecv := 6 }] "eth0")).1.totalRecvStart
      = (initState { name := "eth0", bytesSent := 50, bytesRecv := 60 }).totalRecvStart ∧
    tickSentBytes (collectTick { interfaceName := "eth0", refreshInterval := 1, precision := 2, format := "json" }
        (initState { name := "eth0", bytesSent := 50, bytesRecv := 60 })
        (getInterfaceIOCounters [{ name := "lo", bytesSent := 5, bytesRecv := 6 }] "eth0")).1
        { name := "eth0", bytesSent := 70, bytesRecv := 80 }
      = sub64 70 (initState { name := "eth0", bytesSent := 50, bytesRecv := 60 }).prevSnapshot.bytesSent ∧
    tickRecvBytes (collectTick { interfaceName := "eth0", refreshInterval := 1, precision := 2, format := "json" }
        (initState { name := "eth0", bytesSent := 50, bytesRecv := 60 })
        (getInterfaceIOCounters [{ name := "lo", bytesSent := 5, bytesRecv := 6 }] "eth0")).1
        { name := "eth0", bytesSent := 70, bytesRecv := 80 }
      = sub64 80 (initState { name := "eth0", bytesSent := 50, bytesRecv := 60 }).prevSnapshot.bytesRecv :=
  tick_query_failure_recoverable
    { interfaceName := "eth0", refreshInterval := 1, precision := 2, format := "json" }
    (initState { name := "eth0", bytesSent := 50, bytesRecv := 60 })
    [{ name := "lo", bytesSent := 5, bytesRecv := 6 }]
    { name := "eth0", bytesSent := 70, bytesRecv := 80 }
    (by intro io hio; simp at hio; subst hio; simp)

/-- C6: across any sequence of successful ticks whose underlying cumulative
counters are non-decreasing (and within uint64 range), the raw `totalSent`
quantity of a tick is at least the raw `totalSent` quantity of the
preceding tick: after any prefix of ticks, reading `a` and then `b` with
`a.bytesSent ≤ b.bytesSent` yields non-decreasing raw totals. -/
theorem totals_monotone_across_ticks (nm : NetworkMonitor) (i : IOCountersStat)
    (qs : List (Except String IOCountersStat)) (a b : IOCountersStat)
    (h0 : i.bytesSent ≤ a.bytesSent) (h1 : a.bytesSent ≤ b.bytesSent)
    (hb : b.bytesSent < U64) :
    tickTotalSent (runTicks nm (initState i) qs).1 a ≤
      tickTotalSent (collectTick nm (runTicks nm (initState i) qs).1 (Except.ok a)).1 b := by
  have hstart : (runTicks nm (initState i) qs).1.totalSentStart = i.bytesSent := by
    rw [runTicks_fst_totalSentStart]
    rfl
  have hstart2 : (collectTick nm (runTicks nm (initState i) qs).1
      (Except.ok a)).1.totalSentStart = i.bytesSent := by
    rw [collectTick_fst_totalSentStart, hstart]
  have ha : a.bytesSent < U64 := lt_of_le_of_lt h1 hb
  unfold tickTotalSent
  rw [hstart, hstart2, sub64_eq_of_le h0 ha, sub64_eq_of_le (le_trans h0 h1) hb]
  exact Nat.sub_le_sub_right h1 _

/-- Witness for C6 at concrete non-decreasing counter readings. -/
theorem totals_monotone_across_ticks_witness :
    tickTotalSent (runTicks
        { interfaceName := "eth0", refreshInterval := 1, precision := 2, format := "json" }
        (initState { name := "eth0", bytesSent := 10, bytesRecv := 10 }) []).1
      { name := "eth0", bytesSent := 20, bytesRecv := 0 } ≤
    tickTotalSent (collectTick
        { interfaceName := "eth0", refreshInterval := 1, precision := 2, format := "json" }
        (runTicks { interfaceName := "eth0", refreshInterval := 1, precision := 2, format := "json" }
          (initState { name := "eth0", bytesSent := 10, bytesRecv := 10 }) []).1
        (Except.ok { name := "eth0", bytesSent := 20, bytesRecv := 0 })).1
      { name := "eth0", bytesSent := 30, bytesRecv := 0 } :=
  totals_monotone_across_ticks
    { interfaceName := "eth0", refreshInterval := 1, precision := 2, format := "json" }
    { name := "eth0", bytesSent := 10, bytesRecv := 10 } []
    { name := "eth0", bytesSent := 20, bytesRecv := 0 }
    { name := "eth0", bytesSent := 30, bytesRecv := 0 }
    (by norm_num) (by norm_num) (by norm_num [U64])

/-- C8: every invalid CLI input — precision outside [0,6], refresh interval
outside [1,3600], missing `-i`, or a format other than json/table — makes
`main`'s validation sequence hit `log.Fatal` (error message, non-zero
exit) before the monitor is built, so before any polling starts. -/
theorem invalid_flags_fatal (interfaceName : String) (refreshInterval precision : ℤ)
    (format : String)
    (h : interfaceName = "" ∨ precision < 0 ∨ 6 < precision ∨ refreshInterval ≤ 0 ∨
      3600 < refreshInterval ∨ (format ≠ "json" ∧ format ≠ "table")) :
    ∃ msg, validateFlags interfaceName refreshInterval precision format = Except.error msg := by
  unfold validateFlags
  split_ifs with h1 h2 h3 h4
  · exact ⟨_, rfl⟩
  · exact ⟨_, rfl⟩
  · exact ⟨_, rfl⟩
  · exact ⟨_, rfl⟩
  · exfalso
    rcases h with h | h | h | h | h | h
    · exact h1 h
    · exact h2 (Or.inl h)
    · exact h2 (Or.inr h)
    · exact h3 (Or.inl h)
    · exact h3 (Or.inr h)
    · exact h4 h

/-- Witness for C8: each of the five listed invalid inputs is rejected. -/
theorem invalid_flags_fatal_witness :
    (∃ msg, validateFlags "eth0" 1 7 "table" = Except.error msg) ∧
    (∃ msg, validateFlags "eth0" 0 2 "table" = Except.error msg) ∧
    (∃ msg, validateFlags "eth0" 3601 2 "table" = Except.error msg) ∧
    (∃ msg, validateFlags "" 1 2 "table" = Except.error msg) ∧
    (∃ msg, validateFlags "eth0" 1 2 "xml" = Except.error msg) :=
  ⟨invalid_flags_fatal _ _ _ _ (by norm_num),
   invalid_flags_fatal _ _ _ _ (by norm_num),
   invalid_flags_fatal _ _ _ _ (by norm_num),
   invalid_flags_fatal _ _ _ _ (Or.inl rfl),
   invalid_flags_fatal _ _ _ _ (by decide)⟩

/-- C10 (implicit): deltas and totals are computed in unsigned 64-bit
arithmetic, so for every byte count, validated interval and precision, the
scalers return a nonnegative value with a unit from the fixed ladders, and
every snapshot a successful tick renders carries only nonnegative values —
no negative value can reach a renderer. -/
theorem scaled_outputs_nonneg (bytes : ℕ) (interval precision : ℤ)
    (nm : NetworkMonitor) (st : SamplerState) (cur : IOCountersStat) (s : NetStats)
    (h1 : 1 ≤ interval) (h2 : 0 ≤ precision) (h3 : precision ≤ 6)
    (hnm : 1 ≤ nm.refreshInterval)
    (hs : (collectTick nm st (Except.ok cur)).2 = some s) :
    0 ≤ (calculateSpeed bytes interval precision).value ∧
    (calculateSpeed bytes interval precision).unit ∈
      (["B/s", "KB/s", "MB/s", "GB/s"] : List String) ∧
    0 ≤ (calculateUsage bytes precision).value ∧
    (calculateUsage bytes precision).unit ∈ (["B", "KB", "MB", "GB"] : List String) ∧
    0 ≤ s.sentSpeed.value ∧ 0 ≤ s.recvSpeed.value ∧
    0 ≤ s.totalSent.value ∧ 0 ≤ s.totalRecv.value ∧ 0 ≤ s.totalUsage.value := by
  have hrfl : (collectTick nm st (Except.ok cur)).2 =
      some { interface := nm.interfaceName
             sentSpeed := calculateSpeed (tickSentBytes st cur) nm.refreshInterval nm.precision
             recvSpeed := calculateSpeed (tickRecvBytes st cur) nm.refreshInterval nm.precision
             totalSent := calculateUsage (tickTotalSent st cur) nm.precision
             totalRecv := calculateUsage (tickTotalRecv st cur) nm.precision
             totalUsage := calculateUsage
               (add64 (tickTotalSent st cur) (tickTotalRecv st cur)) nm.precision } := rfl
  rw [hrfl] at hs
  obtain rfl := (Option.some_inj.mp hs).symm
  exact ⟨calculateSpeed_value_nonneg _ _ _ (by omega), calculateSpeed_unit_mem _ _ _,
    calculateUsage_value_nonneg _ _, calculateUsage_unit_mem _ _,
    calculateSpeed_value_nonneg _ _ _ (by omega), calculateSpeed_value_nonneg _ _ _ (by omega),
    calculateUsage_value_nonneg _ _, calculateUsage_value_nonneg _ _,
    calculateUsage_value_nonneg _ _⟩

/-- Witness for C10 at a concrete tick and scaler input. -/
theorem scaled_outputs_nonneg_witness :
    0 ≤ (calculateSpeed 5000 2 3).value ∧
    (calculateSpeed 5000 2 3).unit ∈ (["B/s", "KB/s", "MB/s", "GB/s"] : List String) ∧
    0 ≤ (calculateUsage 5000 3).value ∧
    (calculateUsage 5000 3).unit ∈ (["B", "KB", "MB", "GB"] : List String) ∧
    0 ≤ ({ interface := "eth0"
           sentSpeed := calculateSpeed
             (tickSentBytes (initState { name := "eth0", bytesSent := 7, bytesRecv := 8 })
               { name := "eth0", bytesSent := 9, bytesRecv := 11 }) 2 3
           recvSpeed := calculateSpeed
             (tickRecvBytes (initState { name := "eth0", bytesSent := 7, bytesRecv := 8 })
               { name := "eth0", bytesSent := 9, bytesRecv := 11 }) 2 3
           totalSent := calculateUsage
             (tickTotalSent (initState { name := "eth0", bytesSent := 7, bytesRecv := 8 })
               { name := "eth0", bytesSent := 9, bytesRecv := 11 }) 3
           totalRecv := calculateUsage
             (tickTotalRecv (initState { name := "eth0", bytesSent := 7, bytesRecv := 8 })
               { name := "eth0", bytesSent := 9, bytesRecv := 11 }) 3
           totalUsage := calculateUsage
             (add64 (tickTotalSent (initState { name := "eth0", bytesSent := 7, bytesRecv := 8 })
                 { name := "eth0", bytesSent := 9, bytesRecv := 11 })
               (tickTotalRecv (initState { name := "eth0", bytesSent := 7, bytesRecv := 8 })
                 { name := "eth0", bytesSent := 9, bytesRecv := 11 })) 3 } : NetStats).sentSpeed.value ∧
    0 ≤ ({ interface := "eth0"
           sentSpeed := calculateSpeed
             (tickSentBytes (initState { name := "eth0", bytesSent := 7, bytesRecv := 8 })
               { name := "eth0", bytesSent := 9, bytesRecv := 11 }) 2 3
           recvSpeed := calculateSpeed
             (tickRecvBytes (initState { name := "eth0", bytesSent := 7, bytesRecv := 8 })
               { name := "eth0", bytesSent := 9, bytesRecv := 11 }) 2 3
           totalSent := calculateUsage
             (tickTotalSent (initState { name := "eth0", bytesSent := 7, bytesRecv := 8 })
               { name := "eth0", bytesSent := 9, bytesRecv := 11 }) 3
           totalRecv := calculateUsage
             (tickTotalRecv (initState { name := "eth0", bytesSent := 7, bytesRecv := 8 })
               { name := "eth0", bytesSent := 9, bytesRecv := 11 }) 3
           totalUsage := calculateUsage
             (add64 (tickTotalSent (initState { name := "eth0", bytesSent := 7, bytesRecv := 8 })
                 { name := "eth0", bytesSent := 9, bytesRecv := 11 })
               (tickTotalRecv (initState { name := "eth0", bytesSent := 7, bytesRecv := 8 })
                 { name := "eth0", bytesSent := 9, bytesRecv := 11 })) 3 } : NetStats).recvSpeed.value ∧
    0 ≤ ({ interface := "eth0"
           sentSpeed := calculateSpeed
             (tickSentBytes (initState { name := "eth0", bytesSent := 7, bytesRecv := 8 })
               { name := "eth0", bytesSent := 9, bytesRecv := 11 }) 2 3
           recvSpeed := calculateSpeed
             (tickRecvBytes (initState { name := "eth0", bytesSent := 7, bytesRecv := 8 })
               { name := "eth0", bytesSent := 9, bytesRecv := 11 }) 2 3
           totalSent := calculateUsage
             (tickTotalSent (initState { name := "eth0", bytesSent := 7, bytesRecv := 8 })
               { name := "eth0", bytesSent := 9, bytesRecv := 11 }) 3
           totalRecv := calculateUsage
             (tickTotalRecv (initState { name := "eth0", bytesSent := 7, bytesRecv := 8 })
               { name := "eth0", bytesSent := 9, bytesRecv := 11 }) 3
           totalUsage := calculateUsage
             (add64 (tickTotalSent (initState { name := "eth0", bytesSent := 7, bytesRecv := 8 })
                 { name := "eth0", bytesSent := 9, bytesRecv := 11 })
               (tickTotalRecv (initState { name := "eth0", bytesSent := 7, bytesRecv := 8 })
                 { name := "eth0", bytesSent := 9, bytesRecv := 11 })) 3 } : NetStats).totalSent.value ∧
    0 ≤ ({ interface := "eth0"
           sentSpeed := calculateSpeed
             (tickSentBytes (initState { name := "eth0", bytesSent := 7, bytesRecv := 8 })
               { name := "eth0", bytesSent := 9, bytesRecv := 11 }) 2 3
           recvSpeed := calculateSpeed
             (tickRecvBytes (initState { name := "eth0", bytesSent := 7, bytesRecv := 8 })
               { name := "eth0", bytesSent := 9, bytesRecv := 11 }) 2 3
           totalSent := calculateUsage
             (tickTotalSent (initState { name := "eth0", bytesSent := 7, bytesRecv := 8 })
               { name := "eth0", bytesSent := 9, bytesRecv := 11 }) 3
           totalRecv := calculateUsage
             (tickTotalRecv (initState { name := "eth0", bytesSent := 7, bytesRecv := 8 })
               { name := "eth0", bytesSent := 9, bytesRecv := 11 }) 3
           totalUsage := calculateUsage
             (add64 (tickTotalSent (initState { name := "eth0", bytesSent := 7, bytesRecv := 8 })
                 { name := "eth0", bytesSent := 9, bytesRecv := 11 })
               (tickTotalRecv (initState { name := "eth0", bytesSent := 7, bytesRecv := 8 })
                 { name := "eth0", bytesSent := 9, bytesRecv := 11 })) 3 } : NetStats).totalRecv.value ∧
    0 ≤ ({ interface := "eth0"
           sentSpeed := calculateSpeed
             (tickSentBytes (initState { name := "eth0", bytesSent := 7, bytesRecv := 8 })
               { name := "eth0", bytesSent := 9, bytesRecv := 11 }) 2 3
           recvSpeed := calculateSpeed
             (tickRecvBytes (initState { name := "eth0", bytesSent := 7, bytesRecv := 8 })
               { name := "eth0", bytesSent := 9, bytesRecv := 11 }) 2 3
           totalSent := calculateUsage
             (tickTotalSent (initState { name := "eth0", bytesSent := 7, bytesRecv := 8 })
               { name := "eth0", bytesSent := 9, bytesRecv := 11 }) 3
           totalRecv := calculateUsage
             (tickTotalRecv (initState { name := "eth0", bytesSent := 7, bytesRecv := 8 })
               { name := "eth0", bytesSent := 9, bytesRecv := 11 }) 3
           totalUsage := calculateUsage
             (add64 (tickTotalSent (initState { name := "eth0", bytesSent := 7, bytesRecv := 8 })
                 { name := "eth0", bytesSent := 9, bytesRecv := 11 })
               (tickTotalRecv (initState { name := "eth0", bytesSent := 7, bytesRecv := 8 })
                 { name := "eth0", bytesSent := 9, bytesRecv := 11 })) 3 } : NetStats).totalUsage.value :=
  scaled_outputs_nonneg 5000 2 3
    { interfaceName := "eth0", refreshInterval := 2, precision := 3, format := "json" }
    (initState { name := "eth0", bytesSent := 7, bytesRecv := 8 })
    { name := "eth0", bytesSent := 9, bytesRecv := 11 } _
    (by norm_num) (by norm_num) (by norm_num) (by norm_num) rfl


/-- C5 (counterexample): at `bytes = 2047`, `interval = 2` the rate is
1023.5: `calculateSpeed` keeps unit B/s (1023.5 < 1024), while the rounded
rate is 1024, for which `calculateUsage` selects KB — so the claimed unit
agreement fails. -/
theorem speed_rounded_rate_unit_cex :
    specRoundedRate 2047 2 = 1024 ∧
    (calculateSpeed 2047 2 2).unit = "B/s" ∧
    (calculateUsage (specRoundedRate 2047 2) 2).unit = "KB" := by
  have h1 : specRoundedRate 2047 2 = 1024 := by
    unfold specRoundedRate roundHalfAway
    norm_num
    rfl
  refine ⟨h1, ?_, ?_⟩
  · unfold calculateSpeed
    norm_num [KB, MB, GB]
  · rw [h1]
    unfold calculateUsage
    norm_num [KB, MB, GB]

/-- C5 (amended): `calculateSpeed bytes interval p` agrees with
`calculateUsage` in unit selection when the latter is applied to the
integer part (floor) of the divided rate, for every `bytes` and every
`interval > 0`: half-away rounding of the rate can cross a threshold and
flip the unit, the floor cannot. -/
theorem speed_usage_floor_rate_unit_agree (bytes : ℕ) (interval : ℤ) (p : ℤ)
    (h : 0 < interval) :
    (calculateSpeed bytes interval p).unit =
      (calculateUsage (bytes / interval.toNat) p).unit ++ "/s" := by
  have hi : 0 < interval.toNat := by omega
  have hiz : ((interval.toNat : ℤ)) = interval := Int.toNat_of_nonneg h.le
  have hiq : ((interval : ℚ)) = ((interval.toNat : ℕ) : ℚ) := by exact_mod_cast hiz.symm
  have key : ∀ T : ℕ, 0 < T →
      ((T : ℚ) ≤ (bytes : ℚ) / (interval : ℚ) ↔
        (T : ℚ) ≤ ((bytes / interval.toNat : ℕ) : ℚ)) := by
    intro T hT
    have hiqpos : (0:ℚ) < (interval : ℚ) := by exact_mod_cast h
    rw [le_div_iff₀ hiqpos, hiq]
    constructor
    · intro hTi
      have hmul : (T * interval.toNat : ℕ) ≤ bytes := by exact_mod_cast hTi
      have hdiv : T ≤ bytes / interval.toNat := (Nat.le_div_iff_mul_le hi).mpr hmul
      exact_mod_cast hdiv
    · intro hTn
      have hdiv : T ≤ bytes / interval.toNat := by exact_mod_cast hTn
      have hmul := (Nat.le_div_iff_mul_le hi).mp hdiv
      exact_mod_cast hmul
  have kG := key 1073741824 (by norm_num)
  have kM := key 1048576 (by norm_num)
  have kK := key 1024 (by norm_num)
  have eG : ((1073741824 : ℕ) : ℚ) = GB := by norm_num [GB, MB, KB]
  have eM : ((1048576 : ℕ) : ℚ) = MB := by norm_num [MB, KB]
  have eK : ((1024 : ℕ) : ℚ) = KB := by norm_num [KB]
  rw [eG] at kG
  rw [eM] at kM
  rw [eK] at kK
  unfold calculateSpeed calculateUsage
  dsimp only
  simp only [ge_iff_le]
  by_cases hG : GB ≤ (bytes : ℚ) / (interval : ℚ)
  · rw [if_pos hG, if_pos (kG.mp hG)]
    rfl
  · rw [if_neg hG, if_neg (fun hc => hG (kG.mpr hc))]
    by_cases hM : MB ≤ (bytes : ℚ) / (interval : ℚ)
    · rw [if_pos hM, if_pos (kM.mp hM)]
      rfl
    · rw [if_neg hM, if_neg (fun hc => hM (kM.mpr hc))]
      by_cases hK : KB ≤ (bytes : ℚ) / (interval : ℚ)
      · rw [if_pos hK, if_pos (kK.mp hK)]
        rfl
      · rw [if_neg hK, if_neg (fun hc => hK (kK.mpr hc))]
        rfl

/-- Witness for the amended C5 at `bytes = 2048`, `interval = 2`. -/
theorem speed_usage_floor_rate_unit_agree_witness :
    (calculateSpeed 2048 2 5).unit = (calculateUsage (2048 / (2:ℤ).toNat) 5).unit ++ "/s" :=
  speed_usage_floor_rate_unit_agree 2048 2 5 (by norm_num)

end ZagNetStats
